import Mathlib

/-!
SurfaceFactory: device lifecycle and gated surface drawing.

Shallow embedding of `CompositionSurfaceFactory/SurfaceFactory.cpp`.

* Object handles (`T^`) are identities (`Nat`); a nullable handle is an `Option`.
* The platform (WinRT / Win2D) is a `World` that is threaded through every
  operation: the event registrations, the canvas device bound to each
  composition graphics device, the logical size of every drawing surface,
  the objects whose destructor has run, and the ordered log of every platform
  call the factory issues.
* Behaviour that the platform alone decides (what a URI decodes to, whether a
  drawing session can be opened) is an oracle, `Platform`.
* A C++ exception is a `Fault` returned in an `Except`.
* A task is run to completion where it is started; the fire-and-forget entry
  point discards the task's result, the awaitable one returns it.
-/

namespace CSF

/-! ## Platform data -/

abbrev Compositor := Nat
abbrev CanvasDevice := Nat
abbrev CompositionGraphicsDevice := Nat
abbrev CompositionDrawingSurface := Nat
abbrev SharedLock := Nat
abbrev Uri := Nat
abbrev EventRegistrationToken := Nat

/-- Platform value type `Windows::Foundation::Size`. The factory only copies the
two dimensions and tests `IsEmpty`; the dimensions are carried as integers, and
the sentinel `Size::Empty` is any size of negative width. -/
structure Size where
  Width : Int
  Height : Int
deriving DecidableEq, Repr

/-- Platform property `Size::IsEmpty`. -/
def Size.IsEmpty (s : Size) : Bool := decide (s.Width < 0)

/-- Platform constant `Size::Empty`. -/
def Size.Empty : Size := { Width := -1, Height := -1 }

/-- Platform value type `Windows::Foundation::Rect` as `{ X, Y, Width, Height }`. -/
structure Rect where
  X : Int
  Y : Int
  Width : Int
  Height : Int
deriving DecidableEq, Repr

/-- Platform value type `Windows::UI::Color`. -/
structure Color where
  A : Nat
  R : Nat
  G : Nat
  B : Nat
deriving DecidableEq, Repr

/-- Platform constant `Windows::UI::Colors::Transparent` (alpha 0). -/
def Colors.Transparent : Color := { A := 0, R := 255, G := 255, B := 255 }

/-- A decoded Win2D bitmap: its identity and its `Size` property. -/
structure CanvasBitmap where
  id : Nat
  Size : Size
deriving DecidableEq, Repr

/-- The exceptions that can leave a factory operation. -/
inductive Fault
  | NullReference
  | InvalidArgument
  | ObjectDisposed
  | LoadFailed (code : Nat)
  | DeviceFailed (code : Nat)
deriving DecidableEq, Repr

/-- The three event sources the factory subscribes to. -/
inductive EventSource
  | DisplayContentsInvalidated
  | DeviceLost (device : CanvasDevice)
  | RenderingDeviceReplaced (graphicsDevice : CompositionGraphicsDevice)
deriving DecidableEq, Repr

/-- The member function a `TypedEventHandler` delegates to. -/
inductive Handler
  | OnDisplayContentsInvalidated
  | OnDeviceLost
  | OnRenderingDeviceReplaced
deriving DecidableEq, Repr

/-- One live event registration: `source += handler(target, &method)` returned `token`. -/
structure Subscription where
  source : EventSource
  token : EventRegistrationToken
  target : Nat
  handler : Handler
deriving DecidableEq, Repr

/-- An object whose destructor the factory can run. -/
inductive Resource
  | CanvasDevice (device : CanvasDevice)
  | CompositionGraphicsDevice (graphicsDevice : CompositionGraphicsDevice)
deriving DecidableEq, Repr

/-- The platform calls the factory issues, recorded in program order. -/
inductive Call
  | NewSharedLock (lock : SharedLock)
  | LockEnter (lock : SharedLock)
  | LockExit (lock : SharedLock)
  | Subscribe (source : EventSource) (handler : Handler) (token : EventRegistrationToken)
  | Unsubscribe (source : EventSource) (token : EventRegistrationToken)
  | GetSharedDevice (result : CanvasDevice)
  | CreateCompositionGraphicsDevice (compositor : Compositor) (device : CanvasDevice)
      (result : CompositionGraphicsDevice)
  | SetCanvasDevice (graphicsDevice : CompositionGraphicsDevice) (device : CanvasDevice)
  | GetCanvasDevice (graphicsDevice : Option CompositionGraphicsDevice)
  | CreateDrawingSurface (graphicsDevice : CompositionGraphicsDevice) (size : Size)
      (result : CompositionDrawingSurface)
  | Resize (surface : CompositionDrawingSurface) (size : Size)
  | CreateDrawingSession (surface : CompositionDrawingSurface)
  | Clear (surface : CompositionDrawingSurface) (color : Color)
  | DrawImage (surface : CompositionDrawingSurface) (bitmap : CanvasBitmap)
      (destination : Rect) (source : Rect)
  | LoadAsync (device : Option CanvasDevice) (uri : Uri)
  | CreateFromBytes (device : Option CanvasDevice) (widthInPixels heightInPixels : Int)
  | Dispose (resource : Resource)
  | RaiseDeviceReplaced (sender : Nat)
deriving DecidableEq, Repr

/-- The mutable platform state every operation runs against. -/
structure World where
  nextId : Nat
  sharedDevice : CanvasDevice
  subs : List Subscription
  binding : List (CompositionGraphicsDevice × CanvasDevice)
  surfaces : List (CompositionDrawingSurface × Size)
  disposed : List Resource
  log : List Call
deriving DecidableEq, Repr

/-- What the platform alone decides. -/
structure Platform where
  CompositorOf : CompositionGraphicsDevice → Compositor
  LoadAsync : Uri → Except Fault CanvasBitmap
  CreateFromBytes : List Nat → Int → Int → Except Fault CanvasBitmap
  DrawingSessionFault : CompositionDrawingSurface → Option Fault

/-- A world in which nothing has happened yet; fresh identities and tokens
start at 1. -/
def World.init (sharedDevice : CanvasDevice) : World :=
  { nextId := 1, sharedDevice := sharedDevice, subs := [], binding := [], surfaces := [],
    disposed := [], log := [] }

/-- Record one platform call. -/
def World.emit (w : World) (c : Call) : World :=
  { w with log := w.log ++ [c] }

/-- The logical size of a drawing surface, if it exists. -/
def World.surfaceSize (w : World) (surface : CompositionDrawingSurface) : Option Size :=
  w.surfaces.lookup surface

/-- The canvas device a composition graphics device is bound to, if any. -/
def World.canvasDeviceOf (w : World) (g : CompositionGraphicsDevice) : Option CanvasDevice :=
  w.binding.lookup g

/-! ## Platform primitives -/

/-- Event registration `source += handler`: the platform returns a fresh token. -/
def subscribe (source : EventSource) (target : Nat) (handler : Handler) (w : World) :
    EventRegistrationToken × World :=
  (w.nextId,
    { w with
      nextId := w.nextId + 1
      subs := w.subs ++ [{ source := source, token := w.nextId, target := target,
                           handler := handler }]
      log := w.log ++ [Call.Subscribe source handler w.nextId] })

/-- Event removal `source -= token`: removes the registration made under that
token at that source; a token that is not registered there removes nothing. -/
def unsubscribe (source : EventSource) (token : EventRegistrationToken) (w : World) : World :=
  { w with
    subs := w.subs.filter (fun s => !(decide (s.source = source) && decide (s.token = token)))
    log := w.log ++ [Call.Unsubscribe source token] }

/-- Platform call `CanvasDevice::GetSharedDevice()`. -/
def GetSharedDevice (w : World) : CanvasDevice × World :=
  (w.sharedDevice, w.emit (Call.GetSharedDevice w.sharedDevice))

/-- Platform call `CanvasComposition::CreateCompositionGraphicsDevice(compositor, device)`. -/
def CreateCompositionGraphicsDevice (compositor : Compositor) (device : CanvasDevice)
    (w : World) : CompositionGraphicsDevice × World :=
  (w.nextId,
    { w with
      nextId := w.nextId + 1
      binding := (w.nextId, device) :: w.binding
      log := w.log ++ [Call.CreateCompositionGraphicsDevice compositor device w.nextId] })

/-- Platform call `CanvasComposition::SetCanvasDevice(graphicsDevice, device)`. -/
def SetCanvasDevice (g : CompositionGraphicsDevice) (device : CanvasDevice) (w : World) : World :=
  { w with
    binding := (g, device) :: w.binding
    log := w.log ++ [Call.SetCanvasDevice g device] }

/-- Platform call `graphicsDevice->CreateDrawingSurface(size, B8G8R8A8UIntNormalized, Premultiplied)`. -/
def CreateDrawingSurface (g : CompositionGraphicsDevice) (size : Size) (w : World) :
    CompositionDrawingSurface × World :=
  (w.nextId,
    { w with
      nextId := w.nextId + 1
      surfaces := (w.nextId, size) :: w.surfaces
      log := w.log ++ [Call.CreateDrawingSurface g size w.nextId] })

/-- Platform call `CanvasComposition::Resize(surface, size)`. -/
def Resize (surface : CompositionDrawingSurface) (size : Size) (w : World) : World :=
  { w with
    surfaces := (surface, size) :: w.surfaces
    log := w.log ++ [Call.Resize surface size] }

/-- A destructor call `object->~T()`. -/
def Dispose (r : Resource) (w : World) : World :=
  { w with disposed := w.disposed ++ [r], log := w.log ++ [Call.Dispose r] }

/-- Allocation `ref new SharedLock()`. -/
def NewSharedLock (w : World) : SharedLock × World :=
  (w.nextId, { w with nextId := w.nextId + 1, log := w.log ++ [Call.NewSharedLock w.nextId] })

/-- Modelled from the spec: `SharedLock::Lock(work)` (SharedLock.h is not part of
the sources). The gate runs the unit of work with exclusive access and returns
when the work completes; an error inside the work propagates to the caller. -/
def Lock {α : Type} (lock : SharedLock) (work : World → α × World) (w : World) : α × World :=
  let r := work (w.emit (Call.LockEnter lock))
  (r.1, r.2.emit (Call.LockExit lock))

/-! ## The factory -/

/-- The fields of `SurfaceFactory` that SurfaceFactory.cpp reads and writes
(SurfaceFactory.h is not part of the sources); `self` is the identity of the
object (`this`). A handle the constructor does not assign is null, and an event
token it does not assign is zero, the value no registration returns. -/
structure SurfaceFactory where
  self : Nat
  m_compositor : Option Compositor
  m_canvasDevice : Option CanvasDevice
  m_graphicsDevice : Option CompositionGraphicsDevice
  m_drawingLock : SharedLock
  m_isDeviceCreator : Bool
  OnDeviceLostHandler : EventRegistrationToken
  OnRenderingDeviceReplacedHandler : EventRegistrationToken
  OnDisplayContentsInvalidatedHandler : EventRegistrationToken
deriving DecidableEq, Repr

/-- `SurfaceFactory::CreateDevice` (lines 85-103). -/
def CreateDevice (f : SurfaceFactory) (w : World) : SurfaceFactory × World :=
  match f.m_compositor, f.m_isDeviceCreator with
  | some compositor, true =>
    let r1 : CanvasDevice × SurfaceFactory × World :=
      match f.m_canvasDevice with
      | none =>
        let d := GetSharedDevice w
        let t := subscribe (EventSource.DeviceLost d.1) f.self Handler.OnDeviceLost d.2
        (d.1, { f with m_canvasDevice := some d.1, OnDeviceLostHandler := t.1 }, t.2)
      | some device => (device, f, w)
    match r1.2.1.m_graphicsDevice with
    | none =>
      let g := CreateCompositionGraphicsDevice compositor r1.1 r1.2.2
      let t := subscribe (EventSource.RenderingDeviceReplaced g.1) f.self
        Handler.OnRenderingDeviceReplaced g.2
      ({ r1.2.1 with m_graphicsDevice := some g.1, OnRenderingDeviceReplacedHandler := t.1 }, t.2)
    | some _ => (r1.2.1, r1.2.2)
  | _, _ => (f, w)

/-- Constructor `SurfaceFactory::SurfaceFactory(Compositor^)` (lines 31-39). The
token of the display-contents-invalidated registration is stored in
`OnDeviceLostHandler`, as written at line 36. -/
def SurfaceFactory.ofCompositor (self : Nat) (compositor : Option Compositor) (w : World) :
    SurfaceFactory × World :=
  let l := NewSharedLock w
  let t := subscribe EventSource.DisplayContentsInvalidated self
    Handler.OnDisplayContentsInvalidated l.2
  CreateDevice
    { self := self
      m_compositor := compositor
      m_canvasDevice := none
      m_graphicsDevice := none
      m_drawingLock := l.1
      m_isDeviceCreator := true
      OnDeviceLostHandler := t.1
      OnRenderingDeviceReplacedHandler := 0
      OnDisplayContentsInvalidatedHandler := 0 }
    t.2

/-- Constructor `SurfaceFactory::SurfaceFactory(CompositionGraphicsDevice^, SharedLock^)`
(lines 41-57), for a non-null `graphicsDevice`. -/
def SurfaceFactory.ofGraphicsDevice (P : Platform) (self : Nat)
    (graphicsDevice : CompositionGraphicsDevice) (lock : Option SharedLock) (w : World) :
    SurfaceFactory × World :=
  let l : SharedLock × World :=
    match lock with
    | none => NewSharedLock w
    | some lock => (lock, w)
  let t := subscribe (EventSource.RenderingDeviceReplaced graphicsDevice) self
    Handler.OnRenderingDeviceReplaced l.2
  ({ self := self
     m_compositor := some (P.CompositorOf graphicsDevice)
     m_canvasDevice := none
     m_graphicsDevice := some graphicsDevice
     m_drawingLock := l.1
     m_isDeviceCreator := false
     OnDeviceLostHandler := 0
     OnRenderingDeviceReplacedHandler := t.1
     OnDisplayContentsInvalidatedHandler := 0 },
   t.2)

/-- `SurfaceFactory::CreateFromCompositor` (lines 13-17). -/
def CreateFromCompositor (self : Nat) (compositor : Option Compositor) (w : World) :
    SurfaceFactory × World :=
  SurfaceFactory.ofCompositor self compositor w

/-- `SurfaceFactory::CreateFromGraphicsDevice(graphicsDevice)` (lines 19-23). -/
def CreateFromGraphicsDeviceDefaultLock (P : Platform) (self : Nat)
    (graphicsDevice : CompositionGraphicsDevice) (w : World) : SurfaceFactory × World :=
  SurfaceFactory.ofGraphicsDevice P self graphicsDevice none w

/-- `SurfaceFactory::CreateFromGraphicsDevice(graphicsDevice, lock)` (lines 25-29). -/
def CreateFromGraphicsDevice (P : Platform) (self : Nat)
    (graphicsDevice : CompositionGraphicsDevice) (lock : Option SharedLock) (w : World) :
    SurfaceFactory × World :=
  SurfaceFactory.ofGraphicsDevice P self graphicsDevice lock w

/-- `SurfaceFactory::OnDisplayContentsInvalidated` (lines 64-69). -/
def OnDisplayContentsInvalidated (w : World) : World :=
  (GetSharedDevice w).2

/-- `SurfaceFactory::OnRenderingDeviceReplaced` with `RaiseDeviceReplacedEvent`
(lines 71-83): the public `DeviceReplaced` event is raised, nothing else changes. -/
def OnRenderingDeviceReplaced (f : SurfaceFactory) (w : World) : World :=
  w.emit (Call.RaiseDeviceReplaced f.self)

/-- `SurfaceFactory::OnDeviceLost` (lines 105-115). -/
def OnDeviceLost (f : SurfaceFactory) (sender : CanvasDevice) (w : World) :
    Except Fault Unit × SurfaceFactory × World :=
  let w1 := unsubscribe (EventSource.DeviceLost sender) f.OnDeviceLostHandler w
  let d := GetSharedDevice w1
  let t := subscribe (EventSource.DeviceLost d.1) f.self Handler.OnDeviceLost d.2
  let f1 := { f with m_canvasDevice := some d.1, OnDeviceLostHandler := t.1 }
  match f1.m_graphicsDevice with
  | none => (Except.error Fault.InvalidArgument, f1, t.2)
  | some g => (Except.ok (), f1, SetCanvasDevice g d.1 t.2)

/-- `SurfaceFactory::CreateSurface` (lines 152-173). -/
def CreateSurface (f : SurfaceFactory) (size : Size) (w : World) :
    Except Fault CompositionDrawingSurface × World :=
  let surfaceSize : Size := if size.IsEmpty then { Width := 0, Height := 0 } else size
  let graphicsDevice := f.m_graphicsDevice
  Lock f.m_drawingLock
    (fun w =>
      match graphicsDevice with
      | none => (Except.error Fault.NullReference, w)
      | some g =>
        let s := CreateDrawingSurface g surfaceSize w
        (Except.ok s.1, s.2))
    w

/-- `SurfaceFactory::DrawBitmap` (lines 182-205). -/
def DrawBitmap (P : Platform) (f : SurfaceFactory) (surface : CompositionDrawingSurface)
    (canvasBitmap : CanvasBitmap) (size : Size) (w : World) : Except Fault Unit × World :=
  let bitmapSize := canvasBitmap.Size
  Lock f.m_drawingLock
    (fun w =>
      let r : Size × World :=
        if size.IsEmpty then (bitmapSize, Resize surface bitmapSize w) else (size, w)
      let surfaceSize := r.1
      let w1 := r.2.emit (Call.CreateDrawingSession surface)
      match P.DrawingSessionFault surface with
      | some e => (Except.error e, w1)
      | none =>
        let surfaceRect : Rect :=
          { X := 0, Y := 0, Width := surfaceSize.Width, Height := surfaceSize.Height }
        let bitmapRect : Rect :=
          { X := 0, Y := 0, Width := bitmapSize.Width, Height := bitmapSize.Height }
        let w2 := w1.emit (Call.Clear surface Colors.Transparent)
        (Except.ok (), w2.emit (Call.DrawImage surface canvasBitmap surfaceRect bitmapRect)))
    w

/-- `SurfaceFactory::DrawSurface` (lines 175-180); the task is run to completion
and its outcome is the returned `Except`. -/
def DrawSurface (P : Platform) (f : SurfaceFactory) (surface : CompositionDrawingSurface)
    (uri : Uri) (size : Size) (w : World) : Except Fault Unit × World :=
  match f.m_graphicsDevice with
  | none => (Except.error Fault.InvalidArgument, w.emit (Call.GetCanvasDevice none))
  | some g =>
    let canvasDevice := w.canvasDeviceOf g
    let w1 := (w.emit (Call.GetCanvasDevice (some g))).emit (Call.LoadAsync canvasDevice uri)
    match P.LoadAsync uri with
    | Except.error e => (Except.error e, w1)
    | Except.ok canvasBitmap => DrawBitmap P f surface canvasBitmap size w1

/-- `SurfaceFactory::ResizeSurface` (lines 207-213). -/
def ResizeSurface (f : SurfaceFactory) (surface : CompositionDrawingSurface) (size : Size)
    (w : World) : World :=
  (Lock f.m_drawingLock (fun w => ((), Resize surface size w)) w).2

/-- `SurfaceFactory::CreateSurfaceFromUri(uri, size)` (lines 122-130): the draw task
is started and its outcome ignored. -/
def CreateSurfaceFromUri (P : Platform) (f : SurfaceFactory) (uri : Uri) (size : Size)
    (w : World) : Except Fault CompositionDrawingSurface × World :=
  match CreateSurface f size w with
  | (Except.error e, w1) => (Except.error e, w1)
  | (Except.ok surface, w1) =>
    let ignored := DrawSurface P f surface uri size w1
    (Except.ok surface, ignored.2)

/-- `SurfaceFactory::CreateSurfaceFromUriAsync(uri, size)` (lines 137-150): the
operation completes with the surface once the draw task has completed, and
fails with the task's error otherwise. -/
def CreateSurfaceFromUriAsync (P : Platform) (f : SurfaceFactory) (uri : Uri) (size : Size)
    (w : World) : Except Fault CompositionDrawingSurface × World :=
  match CreateSurface f size w with
  | (Except.error e, w1) => (Except.error e, w1)
  | (Except.ok surface, w1) =>
    match DrawSurface P f surface uri size w1 with
    | (Except.error e, w2) => (Except.error e, w2)
    | (Except.ok (), w2) => (Except.ok surface, w2)

/-- `SurfaceFactory::CreateSurfaceFromBytes(bytes, width, height, size)` (lines 292-301). -/
def CreateSurfaceFromBytes (P : Platform) (f : SurfaceFactory) (bytes : List Nat)
    (widthInPixels heightInPixels : Int) (size : Size) (w : World) :
    Except Fault CompositionDrawingSurface × World :=
  match CreateSurface f size w with
  | (Except.error e, w1) => (Except.error e, w1)
  | (Except.ok surface, w1) =>
    match f.m_graphicsDevice with
    | none => (Except.error Fault.InvalidArgument, w1.emit (Call.GetCanvasDevice none))
    | some g =>
      let canvasDevice := w1.canvasDeviceOf g
      let w2 := (w1.emit (Call.GetCanvasDevice (some g))).emit
        (Call.CreateFromBytes canvasDevice widthInPixels heightInPixels)
      match P.CreateFromBytes bytes widthInPixels heightInPixels with
      | Except.error e => (Except.error e, w2)
      | Except.ok canvasBitmap =>
        match DrawBitmap P f surface canvasBitmap size w2 with
        | (Except.error e, w3) => (Except.error e, w3)
        | (Except.ok (), w3) => (Except.ok surface, w3)

/-- The unit of work `SurfaceFactory::Uninitialize` submits to the gate (lines 307-329). -/
def UninitializeWork (f : SurfaceFactory) (w : World) : SurfaceFactory × World :=
  let f1 := { f with m_compositor := none }
  let w1 := unsubscribe EventSource.DisplayContentsInvalidated
    f1.OnDisplayContentsInvalidatedHandler w
  let r2 : SurfaceFactory × World :=
    match f1.m_canvasDevice with
    | some device =>
      let wa := unsubscribe (EventSource.DeviceLost device) f1.OnDeviceLostHandler w1
      let wb := if f1.m_isDeviceCreator then Dispose (Resource.CanvasDevice device) wa else wa
      ({ f1 with m_canvasDevice := none }, wb)
    | none => (f1, w1)
  match r2.1.m_graphicsDevice with
  | some g =>
    let wa := unsubscribe (EventSource.RenderingDeviceReplaced g)
      r2.1.OnRenderingDeviceReplacedHandler r2.2
    let wb :=
      if r2.1.m_isDeviceCreator then Dispose (Resource.CompositionGraphicsDevice g) wa else wa
    ({ r2.1 with m_graphicsDevice := none }, wb)
  | none => r2

/-- `SurfaceFactory::Uninitialize` (lines 303-331); the destructor (lines 59-62)
is this same call. -/
def Uninitialize (f : SurfaceFactory) (w : World) : SurfaceFactory × World :=
  Lock f.m_drawingLock (UninitializeWork f) w

/-! ## Sequences of operations and notifications -/

/-- What can happen to a factory after its construction: a notification is
delivered to one of its handlers, the platform starts handing out another
shared canvas device, or a caller invokes a public operation. -/
inductive Op
  | displayContentsInvalidated
  | renderingDeviceReplaced
  | deviceLost (sender : CanvasDevice)
  | sharedDeviceChanged (device : CanvasDevice)
  | createSurface (size : Size)
  | createSurfaceFromUri (uri : Uri) (size : Size)
  | createSurfaceFromUriAsync (uri : Uri) (size : Size)
  | createSurfaceFromBytes (bytes : List Nat) (widthInPixels heightInPixels : Int) (size : Size)
  | resizeSurface (surface : CompositionDrawingSurface) (size : Size)
  | teardown

/-- One operation or notification applied to a factory and the world around it. -/
def step (P : Platform) (op : Op) (s : SurfaceFactory × World) : SurfaceFactory × World :=
  match op with
  | Op.displayContentsInvalidated => (s.1, OnDisplayContentsInvalidated s.2)
  | Op.renderingDeviceReplaced => (s.1, OnRenderingDeviceReplaced s.1 s.2)
  | Op.deviceLost sender => (OnDeviceLost s.1 sender s.2).2
  | Op.sharedDeviceChanged device => (s.1, { s.2 with sharedDevice := device })
  | Op.createSurface size => (s.1, (CreateSurface s.1 size s.2).2)
  | Op.createSurfaceFromUri uri size => (s.1, (CreateSurfaceFromUri P s.1 uri size s.2).2)
  | Op.createSurfaceFromUriAsync uri size =>
    (s.1, (CreateSurfaceFromUriAsync P s.1 uri size s.2).2)
  | Op.createSurfaceFromBytes bytes width height size =>
    (s.1, (CreateSurfaceFromBytes P s.1 bytes width height size s.2).2)
  | Op.resizeSurface surface size => (s.1, ResizeSurface s.1 surface size s.2)
  | Op.teardown => Uninitialize s.1 s.2

/-- A finite sequence of operations and notifications, applied in order. -/
def run (P : Platform) (ops : List Op) (s : SurfaceFactory × World) : SurfaceFactory × World :=
  ops.foldl (fun s op => step P op s) s

/-- A finite sequence of device-lost notifications: for each one the platform's
shared device becomes `newShared` and the factory's current canvas device
raises `DeviceLost`, which runs `OnDeviceLost` with that device as sender. -/
def deviceLostNotifications :
    List CanvasDevice → SurfaceFactory × World → SurfaceFactory × World
  | [], s => s
  | newShared :: rest, s =>
    match s.1.m_canvasDevice with
    | none => s
    | some sender =>
      deviceLostNotifications rest
        (OnDeviceLost s.1 sender { s.2 with sharedDevice := newShared }).2

/-- The calls issued between world `w` and a later world `w1`. -/
def issued (w w1 : World) : List Call :=
  w1.log.drop w.log.length

/-- A call that reads or changes a device, the device wrapper, a surface, or an
event registration on a device or wrapper. -/
def Call.touchesDevice : Call → Bool
  | Call.Subscribe (EventSource.DeviceLost _) _ _ => true
  | Call.Subscribe (EventSource.RenderingDeviceReplaced _) _ _ => true
  | Call.Unsubscribe (EventSource.DeviceLost _) _ => true
  | Call.Unsubscribe (EventSource.RenderingDeviceReplaced _) _ => true
  | Call.SetCanvasDevice _ _ => true
  | Call.CreateDrawingSurface _ _ _ => true
  | Call.Resize _ _ => true
  | Call.CreateDrawingSession _ => true
  | Call.Clear _ _ => true
  | Call.DrawImage _ _ _ _ => true
  | Call.Dispose _ => true
  | _ => false

/-- Whether every device-touching call of the list lies inside a gate region,
starting at nesting depth `depth`. -/
def gatedFrom : Nat → List Call → Bool
  | _, [] => true
  | depth, Call.LockEnter _ :: cs => gatedFrom (depth + 1) cs
  | depth, Call.LockExit _ :: cs => gatedFrom (depth - 1) cs
  | depth, c :: cs => (!c.touchesDevice || decide (0 < depth)) && gatedFrom depth cs

/-- The calls `DrawBitmap` issues between entering and leaving the gate when the
drawing session opens. -/
def drawCalls (surface : CompositionDrawingSurface) (canvasBitmap : CanvasBitmap) (size : Size) :
    List Call :=
  (if size.IsEmpty then [Call.Resize surface canvasBitmap.Size] else []) ++
  [Call.CreateDrawingSession surface,
   Call.Clear surface Colors.Transparent,
   Call.DrawImage surface canvasBitmap
     { X := 0, Y := 0,
       Width := (if size.IsEmpty then canvasBitmap.Size else size).Width,
       Height := (if size.IsEmpty then canvasBitmap.Size else size).Height }
     { X := 0, Y := 0, Width := canvasBitmap.Size.Width, Height := canvasBitmap.Size.Height }]

/-- The registrations of `target` whose handler is `OnDeviceLost`. -/
def deviceLostSubs (target : Nat) (w : World) : List Subscription :=
  w.subs.filter (fun s => decide (s.target = target) && decide (s.handler = Handler.OnDeviceLost))

/-! ## Concrete inputs -/

/-- A platform on which URI 0 cannot be fetched, every other URI decodes to a
4x4 bitmap, raw bytes decode to a bitmap of the given pixel dimensions, and
every drawing session opens. -/
def samplePlatform : Platform :=
  { CompositorOf := fun _ => 7
    LoadAsync := fun uri =>
      if uri = 0 then Except.error (Fault.LoadFailed 404)
      else Except.ok { id := uri, Size := { Width := 4, Height := 4 } }
    CreateFromBytes := fun _ width height =>
      Except.ok { id := 0, Size := { Width := width, Height := height } }
    DrawingSessionFault := fun _ => none }

/-- A device-owning factory, created from compositor 7 in a fresh world whose
shared canvas device is 50. -/
def sampleOwning : SurfaceFactory × World :=
  CreateFromCompositor 100 (some 7) (World.init 50)

/-- A world in which a caller already holds graphics device 9, bound to the
shared canvas device 50. -/
def sampleWorld : World :=
  { nextId := 60, sharedDevice := 50, subs := [], binding := [(9, 50)], surfaces := [],
    disposed := [], log := [] }

/-- A device-sharing factory, attached to graphics device 9 with the caller's lock 3. -/
def sampleSharing : SurfaceFactory × World :=
  CreateFromGraphicsDevice samplePlatform 101 9 (some 3) sampleWorld

/-- The sample device-owning factory after `Uninitialize`. -/
def sampleTornDown : SurfaceFactory × World :=
  Uninitialize sampleOwning.1 sampleOwning.2

/-- A factory on which `Uninitialize` has run, after any further operations
and notifications. -/
def afterTeardown (P : Platform) (f : SurfaceFactory) (w : World) (ops : List Op) :
    SurfaceFactory × World :=
  run P ops ( Uninitialize f w)

/-- A device-owning factory created by `CreateFromCompositor` with a compositor,
after a finite sequence of device-lost notifications. -/
def afterDeviceLost (self : Nat) (compositor : Compositor) (w : World)
    (news : List CanvasDevice) : SurfaceFactory × World :=
  deviceLostNotifications news (CreateFromCompositor self (some compositor) w)

/-- The device-owning invariant: the factory holds graphics device `g` and a
canvas device, its only `OnDeviceLost` registration is the one on that canvas
device under the stored token, and `g` is bound to that canvas device. -/
def OwningInv (self : Nat) (g : CompositionGraphicsDevice) (s : SurfaceFactory × World) : Prop :=
  s.1.self = self ∧
  s.1.m_graphicsDevice = some g ∧
  s.1.OnDeviceLostHandler < s.2.nextId ∧
  ∃ d, s.1.m_canvasDevice = some d ∧
    deviceLostSubs self s.2 =
      [{ source := EventSource.DeviceLost d, token := s.1.OnDeviceLostHandler, target := self,
         handler := Handler.OnDeviceLost }] ∧
    s.2.canvasDeviceOf g = some d

/-! ## Basic facts about the primitives -/

theorem DrawBitmap_ok (P : Platform) (f : SurfaceFactory) (surface : CompositionDrawingSurface)
    (canvasBitmap : CanvasBitmap) (size : Size) (w : World)
    (hsession : P.DrawingSessionFault surface = none) :
    DrawBitmap P f surface canvasBitmap size w =
      (Except.ok (),
       { w with
         surfaces :=
           if size.IsEmpty then (surface, canvasBitmap.Size) :: w.surfaces else w.surfaces
         log := w.log ++ [Call.LockEnter f.m_drawingLock] ++
           drawCalls surface canvasBitmap size ++ [Call.LockExit f.m_drawingLock] }) := by
  cases hs : size.IsEmpty <;>
    simp [DrawBitmap, Lock, World.emit, Resize, drawCalls, hsession, hs]

theorem CreateSurface_active (f : SurfaceFactory) (size : Size) (w : World)
    (g : CompositionGraphicsDevice) (hg : f.m_graphicsDevice = some g) :
    CreateSurface f size w =
      (Except.ok w.nextId,
       { w with
         nextId := w.nextId + 1
         surfaces :=
           (w.nextId, if size.IsEmpty then { Width := 0, Height := 0 } else size) :: w.surfaces
         log := w.log ++
           [Call.LockEnter f.m_drawingLock,
            Call.CreateDrawingSurface g
              (if size.IsEmpty then { Width := 0, Height := 0 } else size) w.nextId,
            Call.LockExit f.m_drawingLock] }) := by
  simp [CreateSurface, Lock, World.emit, CreateDrawingSurface, hg]

theorem CreateSurface_null (f : SurfaceFactory) (size : Size) (w : World)
    (hg : f.m_graphicsDevice = none) :
    CreateSurface f size w =
      (Except.error Fault.NullReference,
       { w with
         log := w.log ++ [Call.LockEnter f.m_drawingLock, Call.LockExit f.m_drawingLock] }) := by
  simp [CreateSurface, Lock, World.emit, hg]

theorem DrawSurface_active (P : Platform) (f : SurfaceFactory)
    (surface : CompositionDrawingSurface) (uri : Uri) (size : Size) (w : World)
    (g : CompositionGraphicsDevice) (hg : f.m_graphicsDevice = some g) :
    DrawSurface P f surface uri size w =
      match P.LoadAsync uri with
      | Except.error e =>
        (Except.error e,
         (w.emit (Call.GetCanvasDevice (some g))).emit (Call.LoadAsync (w.canvasDeviceOf g) uri))
      | Except.ok canvasBitmap =>
        DrawBitmap P f surface canvasBitmap size
          ((w.emit (Call.GetCanvasDevice (some g))).emit
            (Call.LoadAsync (w.canvasDeviceOf g) uri)) := by
  simp only [DrawSurface, hg]

theorem DrawBitmap_fault (P : Platform) (f : SurfaceFactory)
    (surface : CompositionDrawingSurface) (canvasBitmap : CanvasBitmap) (size : Size)
    (w : World) (e : Fault) (hsession : P.DrawingSessionFault surface = some e) :
    DrawBitmap P f surface canvasBitmap size w =
      (Except.error e,
       { w with
         surfaces :=
           if size.IsEmpty then (surface, canvasBitmap.Size) :: w.surfaces else w.surfaces
         log := w.log ++ [Call.LockEnter f.m_drawingLock] ++
           (if size.IsEmpty then [Call.Resize surface canvasBitmap.Size] else []) ++
           [Call.CreateDrawingSession surface, Call.LockExit f.m_drawingLock] }) := by
  cases hs : size.IsEmpty <;>
    simp [DrawBitmap, Lock, World.emit, Resize, hsession, hs]

theorem CreateSurfaceFromBytes_ok (P : Platform) (f : SurfaceFactory) (bytes : List Nat)
    (widthInPixels heightInPixels : Int) (size : Size) (w : World)
    (g : CompositionGraphicsDevice) (bitmap : CanvasBitmap)
    (hg : f.m_graphicsDevice = some g)
    (hbytes : P.CreateFromBytes bytes widthInPixels heightInPixels = Except.ok bitmap)
    (hsession : P.DrawingSessionFault w.nextId = none) :
    CreateSurfaceFromBytes P f bytes widthInPixels heightInPixels size w =
      (Except.ok w.nextId,
       { w with
         nextId := w.nextId + 1
         surfaces :=
           (if size.IsEmpty then [(w.nextId, bitmap.Size)] else []) ++
           (w.nextId, if size.IsEmpty then { Width := 0, Height := 0 } else size) :: w.surfaces
         log := w.log ++
           [Call.LockEnter f.m_drawingLock,
            Call.CreateDrawingSurface g
              (if size.IsEmpty then { Width := 0, Height := 0 } else size) w.nextId,
            Call.LockExit f.m_drawingLock,
            Call.GetCanvasDevice (some g),
            Call.CreateFromBytes (w.canvasDeviceOf g) widthInPixels heightInPixels,
            Call.LockEnter f.m_drawingLock] ++
           drawCalls w.nextId bitmap size ++ [Call.LockExit f.m_drawingLock] }) := by
  simp only [CreateSurfaceFromBytes, CreateSurface_active f _ w g hg, hg, hbytes]
  rw [DrawBitmap_ok P f w.nextId bitmap _ _ hsession]
  cases hs : size.IsEmpty <;> simp [World.emit, World.canvasDeviceOf]

theorem Uninitialize_fields (f : SurfaceFactory) (w : World) :
    ( Uninitialize f w).1 =
      { f with m_compositor := none, m_canvasDevice := none, m_graphicsDevice := none } := by
  cases f with
  | mk self comp cd gd lock creator t1 t2 t3 =>
    cases cd <;> cases gd <;> simp [ Uninitialize, UninitializeWork, Lock]

theorem unsubscribe_subs_idem (source : EventSource) (token : EventRegistrationToken)
    (l : List Subscription)
    (h : ∀ s ∈ l, ¬ (s.source = source ∧ s.token = token)) :
    l.filter (fun s => !(decide (s.source = source) && decide (s.token = token))) = l := by
  rw [List.filter_eq_self]
  intro s hs
  have := h s hs
  simp only [Bool.not_eq_true', Bool.and_eq_false_imp, decide_eq_true_eq, decide_eq_false_iff_not]
  intro h1 h2
  exact this ⟨h1, h2⟩

theorem mem_unsubscribe (source : EventSource) (token : EventRegistrationToken) (w : World)
    (s : Subscription) :
    s ∈ (unsubscribe source token w).subs ↔
      s ∈ w.subs ∧ ¬ (s.source = source ∧ s.token = token) := by
  simp only [unsubscribe, List.mem_filter, Bool.not_eq_true', Bool.and_eq_false_imp,
    decide_eq_true_eq, decide_eq_false_iff_not, not_and]

theorem Uninitialize_subs_no_display (f : SurfaceFactory) (w : World) :
    ∀ s ∈ ( Uninitialize f w).2.subs,
      ¬ (s.source = EventSource.DisplayContentsInvalidated ∧
          s.token = f.OnDisplayContentsInvalidatedHandler) := by
  cases f with
  | mk self comp cd gd lock creator t1 t2 t3 =>
    intro s hs h
    cases cd <;> cases gd <;> cases creator <;>
      simp [ Uninitialize, UninitializeWork, Lock, World.emit, unsubscribe, Dispose,
        List.mem_filter] at hs <;>
      simp_all

theorem Uninitialize_of_null (f : SurfaceFactory) (w : World)
    (hc : f.m_canvasDevice = none) (hg : f.m_graphicsDevice = none) :
    ( Uninitialize f w).2 =
      { w with
        subs := w.subs.filter (fun s =>
          !(decide (s.source = EventSource.DisplayContentsInvalidated) &&
            decide (s.token = f.OnDisplayContentsInvalidatedHandler)))
        log := w.log ++
          [Call.LockEnter f.m_drawingLock,
           Call.Unsubscribe EventSource.DisplayContentsInvalidated
             f.OnDisplayContentsInvalidatedHandler,
           Call.LockExit f.m_drawingLock] } := by
  simp [ Uninitialize, UninitializeWork, Lock, World.emit, unsubscribe, hc, hg]

theorem step_drawingLock (P : Platform) (op : Op) (s : SurfaceFactory × World) :
    (step P op s).1.m_drawingLock = s.1.m_drawingLock := by
  cases op <;> simp [step, Uninitialize_fields]
  case deviceLost sender =>
    simp only [OnDeviceLost]
    cases s.1.m_graphicsDevice <;> rfl

theorem step_graphicsDevice_none (P : Platform) (op : Op) (s : SurfaceFactory × World)
    (h : s.1.m_graphicsDevice = none) : (step P op s).1.m_graphicsDevice = none := by
  cases op <;> simp [step, Uninitialize_fields, h]
  case deviceLost sender =>
    simp [OnDeviceLost, h]

theorem run_drawingLock (P : Platform) (ops : List Op) (s : SurfaceFactory × World) :
    (run P ops s).1.m_drawingLock = s.1.m_drawingLock := by
  induction ops generalizing s with
  | nil => rfl
  | cons op ops ih =>
    show (run P ops (step P op s)).1.m_drawingLock = _
    rw [ih, step_drawingLock]

theorem run_graphicsDevice_none (P : Platform) (ops : List Op) (s : SurfaceFactory × World)
    (h : s.1.m_graphicsDevice = none) : (run P ops s).1.m_graphicsDevice = none := by
  induction ops generalizing s with
  | nil => exact h
  | cons op ops ih =>
    show (run P ops (step P op s)).1.m_graphicsDevice = none
    exact ih _ (step_graphicsDevice_none P op s h)

theorem afterTeardown_graphicsDevice (P : Platform) (f : SurfaceFactory) (w : World)
    (ops : List Op) : (afterTeardown P f w ops).1.m_graphicsDevice = none :=
  run_graphicsDevice_none P ops _ (by rw [Uninitialize_fields])

theorem afterTeardown_drawingLock (P : Platform) (f : SurfaceFactory) (w : World)
    (ops : List Op) : (afterTeardown P f w ops).1.m_drawingLock = f.m_drawingLock := by
  unfold afterTeardown
  rw [run_drawingLock, Uninitialize_fields]

theorem deviceLostNotifications_append (news more : List CanvasDevice)
    (s : SurfaceFactory × World) :
    deviceLostNotifications (news ++ more) s =
      deviceLostNotifications more (deviceLostNotifications news s) := by
  induction news generalizing s with
  | nil => rfl
  | cons n news ih =>
    cases hc : s.1.m_canvasDevice with
    | none =>
      have h1 : deviceLostNotifications (n :: news ++ more) s = s := by
        simp [deviceLostNotifications, hc]
      have h2 : deviceLostNotifications (n :: news) s = s := by
        simp [deviceLostNotifications, hc]
      rw [h1, h2]
      cases more with
      | nil => rfl
      | cons m more => simp [deviceLostNotifications, hc]
    | some d =>
      simp only [List.cons_append, deviceLostNotifications, hc]
      exact ih _

theorem OwningInv_create (self : Nat) (compositor : Compositor) (w : World)
    (hfresh : deviceLostSubs self w = []) :
    OwningInv self (w.nextId + 3) (CreateFromCompositor self (some compositor) w) := by
  unfold deviceLostSubs at hfresh
  refine ⟨rfl, rfl, ?_, w.sharedDevice, rfl, ?_, ?_⟩
  · simp [CreateFromCompositor, SurfaceFactory.ofCompositor, CreateDevice, NewSharedLock,
      subscribe, GetSharedDevice, CreateCompositionGraphicsDevice, World.emit]
  · simp [deviceLostSubs, CreateFromCompositor, SurfaceFactory.ofCompositor, CreateDevice,
      NewSharedLock, subscribe, GetSharedDevice, CreateCompositionGraphicsDevice, World.emit,
      List.filter_append, hfresh, List.filter_cons]
  · simp [World.canvasDeviceOf, CreateFromCompositor, SurfaceFactory.ofCompositor, CreateDevice,
      NewSharedLock, subscribe, GetSharedDevice, CreateCompositionGraphicsDevice, World.emit]

theorem OnDeviceLost_owning (f : SurfaceFactory) (d n : CanvasDevice)
    (g : CompositionGraphicsDevice) (w : World) (hg : f.m_graphicsDevice = some g) :
    (OnDeviceLost f d { w with sharedDevice := n }).2.1 =
      { f with m_canvasDevice := some n, OnDeviceLostHandler := w.nextId } ∧
    (OnDeviceLost f d { w with sharedDevice := n }).2.2.nextId = w.nextId + 1 ∧
    (OnDeviceLost f d { w with sharedDevice := n }).2.2.binding = (g, n) :: w.binding ∧
    (OnDeviceLost f d { w with sharedDevice := n }).2.2.subs =
      w.subs.filter (fun x =>
          !(decide (x.source = EventSource.DeviceLost d) &&
            decide (x.token = f.OnDeviceLostHandler))) ++
        [{ source := EventSource.DeviceLost n, token := w.nextId, target := f.self,
           handler := Handler.OnDeviceLost }] := by
  simp [OnDeviceLost, unsubscribe, GetSharedDevice, subscribe, SetCanvasDevice, World.emit, hg]

theorem OwningInv_notify (self : Nat) (g : CompositionGraphicsDevice)
    (s : SurfaceFactory × World) (n : CanvasDevice) (h : OwningInv self g s) :
    ∃ d, s.1.m_canvasDevice = some d ∧
      OwningInv self g (deviceLostNotifications [n] s) ∧
      (deviceLostNotifications [n] s).1.m_canvasDevice = some n ∧
      Subscription.mk (EventSource.DeviceLost d) s.1.OnDeviceLostHandler self
        Handler.OnDeviceLost ∉ (deviceLostNotifications [n] s).2.subs := by
  obtain ⟨f, w⟩ := s
  obtain ⟨hself, hg, htok, d, hd, hsubs, hbind⟩ := h
  simp only at hself hg htok hd hsubs hbind
  have hrun : deviceLostNotifications [n] (f, w) =
      (OnDeviceLost f d { w with sharedDevice := n }).2 := by
    simp [deviceLostNotifications, hd]
  obtain ⟨hf, hnext, hbinding, hs⟩ := OnDeviceLost_owning f d n g w hg
  have hfilter : deviceLostSubs self (OnDeviceLost f d { w with sharedDevice := n }).2.2 =
      [Subscription.mk (EventSource.DeviceLost n) w.nextId self Handler.OnDeviceLost] := by
    unfold deviceLostSubs at hsubs ⊢
    rw [hs]
    simp only [List.filter_append, List.filter_filter]
    have hcomm : w.subs.filter (fun a =>
          (decide (a.target = self) && decide (a.handler = Handler.OnDeviceLost)) &&
          !(decide (a.source = EventSource.DeviceLost d) &&
            decide (a.token = f.OnDeviceLostHandler))) =
        (w.subs.filter (fun a =>
          decide (a.target = self) && decide (a.handler = Handler.OnDeviceLost))).filter
          (fun a => !(decide (a.source = EventSource.DeviceLost d) &&
            decide (a.token = f.OnDeviceLostHandler))) := by
      rw [List.filter_filter]
      apply List.filter_congr
      intro x _
      exact Bool.and_comm _ _
    rw [hcomm, hsubs]
    simp [hself]
  refine ⟨d, hd, ?_, ?_, ?_⟩
  · rw [hrun]
    refine ⟨?_, ?_, ?_, n, ?_, ?_, ?_⟩
    · show (OnDeviceLost f d { w with sharedDevice := n }).2.1.self = self
      rw [hf]; exact hself
    · show (OnDeviceLost f d { w with sharedDevice := n }).2.1.m_graphicsDevice = some g
      rw [hf]; exact hg
    · show (OnDeviceLost f d { w with sharedDevice := n }).2.1.OnDeviceLostHandler <
        (OnDeviceLost f d { w with sharedDevice := n }).2.2.nextId
      rw [hf, hnext]; exact Nat.lt_succ_self _
    · show (OnDeviceLost f d { w with sharedDevice := n }).2.1.m_canvasDevice = some n
      rw [hf]
    · show deviceLostSubs self (OnDeviceLost f d { w with sharedDevice := n }).2.2 = _
      rw [hfilter]
      show _ = [Subscription.mk (EventSource.DeviceLost n)
        (OnDeviceLost f d { w with sharedDevice := n }).2.1.OnDeviceLostHandler self
        Handler.OnDeviceLost]
      rw [hf]
    · show World.canvasDeviceOf (OnDeviceLost f d { w with sharedDevice := n }).2.2 g = some n
      simp [World.canvasDeviceOf, hbinding]
  · rw [hrun]
    show (OnDeviceLost f d { w with sharedDevice := n }).2.1.m_canvasDevice = some n
    rw [hf]
  · rw [hrun]
    intro hmem
    have hin : Subscription.mk (EventSource.DeviceLost d) f.OnDeviceLostHandler self
        Handler.OnDeviceLost ∈
        deviceLostSubs self (OnDeviceLost f d { w with sharedDevice := n }).2.2 := by
      unfold deviceLostSubs
      rw [List.mem_filter]
      exact ⟨hmem, by simp⟩
    rw [hfilter] at hin
    simp only [List.mem_singleton, Subscription.mk.injEq] at hin
    exact absurd hin.2.1 (Nat.ne_of_lt htok)

theorem OwningInv_afterDeviceLost (self : Nat) (compositor : Compositor) (w : World)
    (news : List CanvasDevice) (hfresh : deviceLostSubs self w = []) :
    OwningInv self (w.nextId + 3) (afterDeviceLost self compositor w news) := by
  induction news using List.reverseRecOn with
  | nil => exact OwningInv_create self compositor w hfresh
  | append_singleton news n ih =>
    unfold afterDeviceLost at ih ⊢
    rw [deviceLostNotifications_append]
    obtain ⟨_, _, h, _⟩ := OwningInv_notify self (w.nextId + 3) _ n ih
    exact h

theorem OnDeviceLost_keeps_display (f : SurfaceFactory) (sender : CanvasDevice) (w : World)
    (x : Subscription) (hx : x ∈ w.subs)
    (hsrc : x.source = EventSource.DisplayContentsInvalidated) :
    x ∈ (OnDeviceLost f sender w).2.2.subs ∧
    (OnDeviceLost f sender w).2.1.OnDisplayContentsInvalidatedHandler =
      f.OnDisplayContentsInvalidatedHandler := by
  cases h : f.m_graphicsDevice <;>
    simp [OnDeviceLost, unsubscribe, GetSharedDevice, subscribe, SetCanvasDevice, World.emit, h,
      List.mem_filter, hx, hsrc]

theorem deviceLostNotifications_keeps_display (news : List CanvasDevice)
    (s : SurfaceFactory × World) (x : Subscription) (hx : x ∈ s.2.subs)
    (hsrc : x.source = EventSource.DisplayContentsInvalidated) :
    x ∈ (deviceLostNotifications news s).2.subs ∧
    (deviceLostNotifications news s).1.OnDisplayContentsInvalidatedHandler =
      s.1.OnDisplayContentsInvalidatedHandler := by
  induction news generalizing s with
  | nil => exact ⟨hx, rfl⟩
  | cons n news ih =>
    cases hc : s.1.m_canvasDevice with
    | none =>
      have h : deviceLostNotifications (n :: news) s = s := by
        simp [deviceLostNotifications, hc]
      rw [h]
      exact ⟨hx, rfl⟩
    | some d =>
      have h : deviceLostNotifications (n :: news) s =
          deviceLostNotifications news
            (OnDeviceLost s.1 d { s.2 with sharedDevice := n }).2 := by
        simp [deviceLostNotifications, hc]
      rw [h]
      have hk := OnDeviceLost_keeps_display s.1 d { s.2 with sharedDevice := n } x hx hsrc
      have := ih (OnDeviceLost s.1 d { s.2 with sharedDevice := n }).2 hk.1
      exact ⟨this.1, this.2.trans hk.2⟩

theorem Uninitialize_keeps_display (f : SurfaceFactory) (w : World) (x : Subscription)
    (hx : x ∈ w.subs) (hsrc : x.source = EventSource.DisplayContentsInvalidated)
    (htok : x.token ≠ f.OnDisplayContentsInvalidatedHandler) :
    x ∈ ( Uninitialize f w).2.subs := by
  cases f with
  | mk self comp cd gd lock creator t1 t2 t3 =>
    simp only at htok
    cases cd <;> cases gd <;> cases creator <;>
      simp [ Uninitialize, UninitializeWork, Lock, World.emit, unsubscribe, Dispose,
        List.mem_filter, hx, hsrc, htok]

theorem Uninitialize_issues_display_unsubscribe (f : SurfaceFactory) (w : World) :
    Call.Unsubscribe EventSource.DisplayContentsInvalidated
      f.OnDisplayContentsInvalidatedHandler ∈ issued w ( Uninitialize f w).2 := by
  cases f with
  | mk self comp cd gd lock creator t1 t2 t3 =>
    cases cd <;> cases gd <;> cases creator <;>
      simp [issued, Uninitialize, UninitializeWork, Lock, World.emit, unsubscribe, Dispose]

/-! ## Claims -/

/-- C1: for a URI that decodes to `bitmap` and every requested size, whenever
the awaitable of `CreateSurfaceFromUriAsync` completes with a surface, that
surface has the bitmap's size if the requested size was unspecified and the
requested size otherwise; and on an active factory the awaitable does complete
when the drawing session opens. -/
theorem C1_async_surface_size (P : Platform) (f : SurfaceFactory) (uri : Uri) (size : Size)
    (w : World) (bitmap : CanvasBitmap) (hload : P.LoadAsync uri = Except.ok bitmap) :
    (∀ s, (CreateSurfaceFromUriAsync P f uri size w).1 = Except.ok s →
      (CreateSurfaceFromUriAsync P f uri size w).2.surfaceSize s =
        some (if size.IsEmpty then bitmap.Size else size)) ∧
    (∀ g, f.m_graphicsDevice = some g → (∀ s, P.DrawingSessionFault s = none) →
      ∃ s, (CreateSurfaceFromUriAsync P f uri size w).1 = Except.ok s) := by
  cases hg : f.m_graphicsDevice with
  | none =>
    refine ⟨?_, ?_⟩
    · intro s hs
      simp [CreateSurfaceFromUriAsync, CreateSurface_null f size w hg] at hs
    · intro g hg2
      cases hg2
  | some g =>
    cases hsession : P.DrawingSessionFault w.nextId with
    | some e =>
      have herr : (CreateSurfaceFromUriAsync P f uri size w).1 = Except.error e := by
        simp only [CreateSurfaceFromUriAsync, CreateSurface_active f size w g hg,
          DrawSurface_active P f _ uri size _ g hg, hload]
        rw [DrawBitmap_fault P f w.nextId bitmap _ _ e hsession]
      refine ⟨?_, ?_⟩
      · intro s hs
        rw [herr] at hs
        cases hs
      · intro _ _ hall
        rw [hall w.nextId] at hsession
        cases hsession
    | none =>
      have hok : CreateSurfaceFromUriAsync P f uri size w =
          (Except.ok w.nextId,
           { w with
             nextId := w.nextId + 1
             surfaces :=
               (if size.IsEmpty then [(w.nextId, bitmap.Size)] else []) ++
               (w.nextId, if size.IsEmpty then { Width := 0, Height := 0 } else size) ::
                 w.surfaces
             log := w.log ++
               [Call.LockEnter f.m_drawingLock,
                Call.CreateDrawingSurface g
                  (if size.IsEmpty then { Width := 0, Height := 0 } else size) w.nextId,
                Call.LockExit f.m_drawingLock,
                Call.GetCanvasDevice (some g),
                Call.LoadAsync (w.canvasDeviceOf g) uri,
                Call.LockEnter f.m_drawingLock] ++
               drawCalls w.nextId bitmap size ++ [Call.LockExit f.m_drawingLock] }) := by
        simp only [CreateSurfaceFromUriAsync, CreateSurface_active f size w g hg,
          DrawSurface_active P f _ uri size _ g hg, hload]
        rw [DrawBitmap_ok P f w.nextId bitmap _ _ hsession]
        cases hs : size.IsEmpty <;> simp [World.emit, World.canvasDeviceOf]
      refine ⟨?_, ?_⟩
      · intro s hs
        rw [hok] at hs ⊢
        simp only [Except.ok.injEq] at hs
        subst hs
        cases hsz : size.IsEmpty <;> simp [World.surfaceSize]
      · intro _ _ _
        exact ⟨w.nextId, by rw [hok]⟩

/-- Witness for C1: URI 1 on the sample platform with no requested size. -/
theorem C1_async_surface_size_witness :
    ∃ s, (CreateSurfaceFromUriAsync samplePlatform sampleSharing.1 1 Size.Empty
        sampleSharing.2).1 = Except.ok s ∧
      (CreateSurfaceFromUriAsync samplePlatform sampleSharing.1 1 Size.Empty
        sampleSharing.2).2.surfaceSize s = some { Width := 4, Height := 4 } :=
  have h := C1_async_surface_size samplePlatform sampleSharing.1 1 Size.Empty sampleSharing.2
    { id := 1, Size := { Width := 4, Height := 4 } } rfl
  let ⟨s, hs⟩ := h.2 9 rfl (fun _ => rfl)
  ⟨s, hs, h.1 s hs⟩

/-- C2: for every surface, bitmap and size, `DrawBitmap` (with the drawing
session opening) submits one unit of work to the gate and issues inside it, in
order, a resize to the bitmap's size exactly when the size is unspecified, one
clear to transparent, and one blit from the whole bitmap `(0,0,bw,bh)` to the
whole surface `(0,0,size)` (the bitmap's size when unspecified). In particular
`CreateSurfaceFromBytes(bytes, 4, 4, Size(8,8))` on an active factory issues no
resize, leaves the surface at 8x8, and clears before drawing the 4x4 bitmap. -/
theorem C2_DrawBitmap_gate_resize_clear_blit (P : Platform) (f : SurfaceFactory)
    (surface : CompositionDrawingSurface) (canvasBitmap : CanvasBitmap) (size : Size)
    (w : World) (hsession : ∀ s, P.DrawingSessionFault s = none) :
    (DrawBitmap P f surface canvasBitmap size w).1 = Except.ok () ∧
    issued w (DrawBitmap P f surface canvasBitmap size w).2 =
      [Call.LockEnter f.m_drawingLock] ++
      (if size.IsEmpty then [Call.Resize surface canvasBitmap.Size] else []) ++
      [Call.CreateDrawingSession surface,
       Call.Clear surface Colors.Transparent,
       Call.DrawImage surface canvasBitmap
         { X := 0, Y := 0,
           Width := (if size.IsEmpty then canvasBitmap.Size else size).Width,
           Height := (if size.IsEmpty then canvasBitmap.Size else size).Height }
         { X := 0, Y := 0, Width := canvasBitmap.Size.Width,
           Height := canvasBitmap.Size.Height },
       Call.LockExit f.m_drawingLock] ∧
    Colors.Transparent.A = 0 ∧
    (∀ (bytes : List Nat) (g : CompositionGraphicsDevice) (bitmap : CanvasBitmap),
      f.m_graphicsDevice = some g →
      P.CreateFromBytes bytes 4 4 = Except.ok bitmap →
      bitmap.Size = { Width := 4, Height := 4 } →
      ∃ s,
        (CreateSurfaceFromBytes P f bytes 4 4 { Width := 8, Height := 8 } w).1 = Except.ok s ∧
        (CreateSurfaceFromBytes P f bytes 4 4 { Width := 8, Height := 8 } w).2.surfaceSize s =
          some { Width := 8, Height := 8 } ∧
        issued w (CreateSurfaceFromBytes P f bytes 4 4 { Width := 8, Height := 8 } w).2 =
          [Call.LockEnter f.m_drawingLock,
           Call.CreateDrawingSurface g { Width := 8, Height := 8 } s,
           Call.LockExit f.m_drawingLock,
           Call.GetCanvasDevice (some g),
           Call.CreateFromBytes (w.canvasDeviceOf g) 4 4,
           Call.LockEnter f.m_drawingLock,
           Call.CreateDrawingSession s,
           Call.Clear s Colors.Transparent,
           Call.DrawImage s bitmap
             { X := 0, Y := 0, Width := 8, Height := 8 }
             { X := 0, Y := 0, Width := 4, Height := 4 },
           Call.LockExit f.m_drawingLock]) := by
  refine ⟨?_, ?_, rfl, ?_⟩
  · rw [DrawBitmap_ok P f surface canvasBitmap size w (hsession surface)]
  · rw [DrawBitmap_ok P f surface canvasBitmap size w (hsession surface)]
    simp [issued, drawCalls]
  · intro bytes g bitmap hg hbytes hsize
    have h := CreateSurfaceFromBytes_ok P f bytes 4 4 { Width := 8, Height := 8 } w g bitmap hg
      hbytes (hsession w.nextId)
    refine ⟨w.nextId, ?_, ?_, ?_⟩
    · rw [h]
    · rw [h]; simp [World.surfaceSize, Size.IsEmpty]
    · rw [h]
      simp [issued, Size.IsEmpty, drawCalls, hsize, World.canvasDeviceOf]

/-- Witness for C2 on the sample platform: an 8x8 request drawn from a 4x4 bitmap. -/
theorem C2_DrawBitmap_gate_resize_clear_blit_witness :
    (DrawBitmap samplePlatform sampleSharing.1 5 { id := 0, Size := { Width := 4, Height := 4 } }
        Size.Empty sampleSharing.2).1 = Except.ok () ∧
    ∃ s,
      (CreateSurfaceFromBytes samplePlatform sampleSharing.1 [0, 0, 0, 0] 4 4
          { Width := 8, Height := 8 } sampleSharing.2).1 = Except.ok s ∧
      (CreateSurfaceFromBytes samplePlatform sampleSharing.1 [0, 0, 0, 0] 4 4
          { Width := 8, Height := 8 } sampleSharing.2).2.surfaceSize s =
        some { Width := 8, Height := 8 } :=
  have h := C2_DrawBitmap_gate_resize_clear_blit samplePlatform sampleSharing.1 5
    { id := 0, Size := { Width := 4, Height := 4 } } Size.Empty sampleSharing.2 (fun _ => rfl)
  ⟨h.1,
   let ⟨s, h1, h2, _⟩ := h.2.2.2 [0, 0, 0, 0] 9
     { id := 0, Size := { Width := 4, Height := 4 } } rfl rfl rfl
   ⟨s, h1, h2⟩⟩

/-- C3: what a second `Uninitialize` (an explicit call followed by the
destructor's) does on any factory: it leaves the fields, the registrations and
the disposed objects as the first call left them and disposes nothing, but it
does submit work to the gate again and that work issues the
display-contents-invalidated unsubscribe a second time. -/
theorem C3_second_Uninitialize_repeats_display_unsubscribe (f : SurfaceFactory) (w : World) :
    ( Uninitialize ( Uninitialize f w).1 ( Uninitialize f w).2).1 = ( Uninitialize f w).1 ∧
    ( Uninitialize ( Uninitialize f w).1 ( Uninitialize f w).2).2.subs =
      ( Uninitialize f w).2.subs ∧
    ( Uninitialize ( Uninitialize f w).1 ( Uninitialize f w).2).2.disposed =
      ( Uninitialize f w).2.disposed ∧
    issued ( Uninitialize f w).2 ( Uninitialize ( Uninitialize f w).1 ( Uninitialize f w).2).2 =
      [Call.LockEnter f.m_drawingLock,
       Call.Unsubscribe EventSource.DisplayContentsInvalidated
         f.OnDisplayContentsInvalidatedHandler,
       Call.LockExit f.m_drawingLock] := by
  have hsubs := Uninitialize_subs_no_display f w
  have hnull := Uninitialize_of_null ( Uninitialize f w).1 ( Uninitialize f w).2
    (by rw [Uninitialize_fields]) (by rw [Uninitialize_fields])
  have hlock : ( Uninitialize f w).1.m_drawingLock = f.m_drawingLock := by
    rw [Uninitialize_fields]
  have htok : ( Uninitialize f w).1.OnDisplayContentsInvalidatedHandler =
      f.OnDisplayContentsInvalidatedHandler := by
    rw [Uninitialize_fields]
  refine ⟨?_, ?_, ?_, ?_⟩
  · rw [Uninitialize_fields, Uninitialize_fields]
  · rw [hnull, htok]
    exact unsubscribe_subs_idem _ _ _ hsubs
  · rw [hnull]
  · rw [hnull, hlock, htok]
    simp [issued]

/-- C5: the display-contents-invalidated registration of a device-owning factory
survives teardown. The constructor stores that registration's token in
`OnDeviceLostHandler`, where `CreateDevice` overwrites it, and leaves
`OnDisplayContentsInvalidatedHandler` at its initial zero; `Uninitialize`
unsubscribes with that zero token, so after any device-lost notifications and
`Uninitialize` the handler is still registered. -/
theorem C5_display_registration_survives_teardown (self : Nat) (compositor : Compositor)
    (w : World) (news : List CanvasDevice) :
    Call.Subscribe EventSource.DisplayContentsInvalidated Handler.OnDisplayContentsInvalidated
      (w.nextId + 1) ∈ issued w (CreateFromCompositor self (some compositor) w).2 ∧
    (afterDeviceLost self compositor w news).1.OnDisplayContentsInvalidatedHandler = 0 ∧
    Call.Unsubscribe EventSource.DisplayContentsInvalidated 0 ∈
      issued (afterDeviceLost self compositor w news).2
        ( Uninitialize (afterDeviceLost self compositor w news).1
          (afterDeviceLost self compositor w news).2).2 ∧
    Subscription.mk EventSource.DisplayContentsInvalidated (w.nextId + 1) self
        Handler.OnDisplayContentsInvalidated ∈
      ( Uninitialize (afterDeviceLost self compositor w news).1
        (afterDeviceLost self compositor w news).2).2.subs := by
  have hcreate : Subscription.mk EventSource.DisplayContentsInvalidated (w.nextId + 1) self
      Handler.OnDisplayContentsInvalidated ∈
      (CreateFromCompositor self (some compositor) w).2.subs := by
    simp [CreateFromCompositor, SurfaceFactory.ofCompositor, CreateDevice, NewSharedLock,
      subscribe, GetSharedDevice, CreateCompositionGraphicsDevice, World.emit]
  have hkeep := deviceLostNotifications_keeps_display news
    (CreateFromCompositor self (some compositor) w) _ hcreate rfl
  have htok : (afterDeviceLost self compositor w news).1.OnDisplayContentsInvalidatedHandler
      = 0 := hkeep.2
  refine ⟨?_, htok, ?_, ?_⟩
  · simp [issued, CreateFromCompositor, SurfaceFactory.ofCompositor, CreateDevice,
      NewSharedLock, subscribe, GetSharedDevice, CreateCompositionGraphicsDevice, World.emit]
  · have h := Uninitialize_issues_display_unsubscribe
      (afterDeviceLost self compositor w news).1 (afterDeviceLost self compositor w news).2
    rw [htok] at h
    exact h
  · apply Uninitialize_keeps_display _ _ _ hkeep.1 rfl
    rw [htok]
    exact Nat.succ_ne_zero _

/-- C6: `OnDeviceLost` submits nothing to the factory's lock: on every factory
its calls are the unsubscribe of the stale handler, the acquisition of the
shared device, the resubscribe and (with a graphics device present) the rebind
with `SetCanvasDevice`, none of them inside a gate region; `CreateSurface`,
`ResizeSurface`, `DrawBitmap` and `Uninitialize` issue every device-touching
call inside one. -/
theorem C6_OnDeviceLost_runs_outside_gate (P : Platform) (f : SurfaceFactory)
    (sender : CanvasDevice) (surface : CompositionDrawingSurface) (canvasBitmap : CanvasBitmap)
    (size : Size) (w : World) :
    issued w (OnDeviceLost f sender w).2.2 =
      [Call.Unsubscribe (EventSource.DeviceLost sender) f.OnDeviceLostHandler,
       Call.GetSharedDevice w.sharedDevice,
       Call.Subscribe (EventSource.DeviceLost w.sharedDevice) Handler.OnDeviceLost w.nextId] ++
      (match f.m_graphicsDevice with
       | some g => [Call.SetCanvasDevice g w.sharedDevice]
       | none => []) ∧
    (∀ l, Call.LockEnter l ∉ issued w (OnDeviceLost f sender w).2.2) ∧
    gatedFrom 0 (issued w (OnDeviceLost f sender w).2.2) = false ∧
    gatedFrom 0 (issued w (CreateSurface f size w).2) = true ∧
    gatedFrom 0 (issued w (ResizeSurface f surface size w)) = true ∧
    gatedFrom 0 (issued w (DrawBitmap P f surface canvasBitmap size w).2) = true ∧
    gatedFrom 0 (issued w ( Uninitialize f w).2) = true := by
  cases f with
  | mk self comp cd gd lock creator t1 t2 t3 =>
    have hlost : issued w
        (OnDeviceLost
          { self := self, m_compositor := comp, m_canvasDevice := cd, m_graphicsDevice := gd,
            m_drawingLock := lock, m_isDeviceCreator := creator, OnDeviceLostHandler := t1,
            OnRenderingDeviceReplacedHandler := t2,
            OnDisplayContentsInvalidatedHandler := t3 } sender w).2.2 =
        [Call.Unsubscribe (EventSource.DeviceLost sender) t1,
         Call.GetSharedDevice w.sharedDevice,
         Call.Subscribe (EventSource.DeviceLost w.sharedDevice) Handler.OnDeviceLost w.nextId] ++
        (match gd with
         | some g => [Call.SetCanvasDevice g w.sharedDevice]
         | none => []) := by
      cases gd <;>
        simp [issued, OnDeviceLost, unsubscribe, GetSharedDevice, subscribe, SetCanvasDevice,
          World.emit]
    refine ⟨hlost, ?_, ?_, ?_, ?_, ?_, ?_⟩
    · intro l
      rw [hlost]
      cases gd <;> simp
    · rw [hlost]
      cases gd <;> simp [gatedFrom, Call.touchesDevice]
    · cases gd <;>
        simp [issued, CreateSurface, Lock, CreateDrawingSurface, World.emit, gatedFrom,
          Call.touchesDevice]
    · simp [issued, ResizeSurface, Lock, Resize, World.emit, gatedFrom, Call.touchesDevice]
    · cases hsession : P.DrawingSessionFault surface <;> cases hs : size.IsEmpty <;>
        simp [issued, DrawBitmap, Lock, Resize, World.emit, gatedFrom, Call.touchesDevice,
          hsession, hs]
    · cases cd <;> cases gd <;> cases creator <;>
        simp [issued, Uninitialize, UninitializeWork, Lock, unsubscribe, Dispose, World.emit,
          gatedFrom, Call.touchesDevice]

/-- C7: for a device-owning factory (created with a compositor, `self` having
no earlier `OnDeviceLost` registration) and every finite sequence of
device-lost notifications followed by one more, each sent by the factory's
current canvas device: after that notification the stale device's registration
under the old token is gone, the factory's only `OnDeviceLost` registration is
the one on the newly acquired canvas device under the stored token, and the
same graphics-device wrapper as at creation is bound to that new device. -/
theorem C7_device_lost_rebinds_and_resubscribes (self : Nat) (compositor : Compositor)
    (w : World) (news : List CanvasDevice) (n : CanvasDevice)
    (hfresh : deviceLostSubs self w = []) :
    ∃ stale g,
      (afterDeviceLost self compositor w news).1.m_canvasDevice = some stale ∧
      (CreateFromCompositor self (some compositor) w).1.m_graphicsDevice = some g ∧
      ({ source := EventSource.DeviceLost stale
         token := (afterDeviceLost self compositor w news).1.OnDeviceLostHandler
         target := self
         handler := Handler.OnDeviceLost } : Subscription) ∉
        (afterDeviceLost self compositor w (news ++ [n])).2.subs ∧
      (afterDeviceLost self compositor w (news ++ [n])).1.m_canvasDevice = some n ∧
      deviceLostSubs self (afterDeviceLost self compositor w (news ++ [n])).2 =
        [{ source := EventSource.DeviceLost n
           token := (afterDeviceLost self compositor w (news ++ [n])).1.OnDeviceLostHandler
           target := self
           handler := Handler.OnDeviceLost }] ∧
      (afterDeviceLost self compositor w (news ++ [n])).1.m_graphicsDevice = some g ∧
      (afterDeviceLost self compositor w (news ++ [n])).2.canvasDeviceOf g = some n := by
  have hinv := OwningInv_afterDeviceLost self compositor w news hfresh
  obtain ⟨stale, hstale, hafter, hn, hgone⟩ :=
    OwningInv_notify self (w.nextId + 3) _ n hinv
  have happ : afterDeviceLost self compositor w (news ++ [n]) =
      deviceLostNotifications [n] (afterDeviceLost self compositor w news) := by
    unfold afterDeviceLost
    rw [deviceLostNotifications_append]
  rw [happ]
  obtain ⟨_, hg, _, d, hd, hsubs, hbind⟩ := hafter
  rw [hn] at hd
  cases hd
  exact ⟨stale, w.nextId + 3, hstale, rfl, hgone, hn, hsubs, hg, hbind⟩

/-- Witness for C7: the sample device-owning factory, notifications that hand
out devices 51 and 52, then one that hands out 53. -/
theorem C7_device_lost_rebinds_and_resubscribes_witness :
    ∃ stale g,
      (afterDeviceLost 100 7 (World.init 50) [51, 52]).1.m_canvasDevice = some stale ∧
      (afterDeviceLost 100 7 (World.init 50) ([51, 52] ++ [53])).1.m_canvasDevice = some 53 ∧
      (afterDeviceLost 100 7 (World.init 50) ([51, 52] ++ [53])).1.m_graphicsDevice = some g ∧
      (afterDeviceLost 100 7 (World.init 50) ([51, 52] ++ [53])).2.canvasDeviceOf g = some 53 :=
  let ⟨stale, g, h1, _, _, h4, _, h6, h7⟩ :=
    C7_device_lost_rebinds_and_resubscribes 100 7 (World.init 50) [51, 52] 53 rfl
  ⟨stale, g, h1, h4, h6, h7⟩

/-- C8: on an active factory, `CreateSurfaceFromUri` allocates a surface inside
the gate, starts the fetch, decode and draw pipeline on it, and returns that
surface whatever the pipeline does: the surface exists in the resulting world
and the world is the one the pipeline leaves. `CreateSurfaceFromUriAsync` runs
the same allocation and pipeline and returns that surface exactly when the
pipeline succeeds (the URI decodes and the drawing session opens); otherwise it
fails with the pipeline's own error and returns no surface. -/
theorem C8_sync_returns_surface_async_propagates (P : Platform) (f : SurfaceFactory)
    (uri : Uri) (size : Size) (w : World) (g : CompositionGraphicsDevice)
    (hg : f.m_graphicsDevice = some g) :
    ∃ s,
      (CreateSurface f size w).1 = Except.ok s ∧
      (CreateSurfaceFromUri P f uri size w).1 = Except.ok s ∧
      ((DrawSurface P f s uri size (CreateSurface f size w).2).1 = Except.ok () ↔
        (∃ bitmap, P.LoadAsync uri = Except.ok bitmap) ∧ P.DrawingSessionFault s = none) ∧
      ((CreateSurfaceFromUriAsync P f uri size w).1 = Except.ok s ↔
        (DrawSurface P f s uri size (CreateSurface f size w).2).1 = Except.ok ()) ∧
      (∀ s1, (CreateSurfaceFromUriAsync P f uri size w).1 = Except.ok s1 → s1 = s) ∧
      (∀ e, (DrawSurface P f s uri size (CreateSurface f size w).2).1 = Except.error e →
        (CreateSurfaceFromUriAsync P f uri size w).1 = Except.error e) ∧
      (∀ e, P.LoadAsync uri = Except.error e →
        (CreateSurfaceFromUriAsync P f uri size w).1 = Except.error e) ∧
      (∀ bitmap e, P.LoadAsync uri = Except.ok bitmap → P.DrawingSessionFault s = some e →
        (CreateSurfaceFromUriAsync P f uri size w).1 = Except.error e) ∧
      (CreateSurfaceFromUri P f uri size w).2 =
        (DrawSurface P f s uri size (CreateSurface f size w).2).2 ∧
      (CreateSurfaceFromUriAsync P f uri size w).2 =
        (DrawSurface P f s uri size (CreateSurface f size w).2).2 ∧
      (issued w (CreateSurfaceFromUri P f uri size w).2).take 5 =
        [Call.LockEnter f.m_drawingLock,
         Call.CreateDrawingSurface g
           (if size.IsEmpty then { Width := 0, Height := 0 } else size) s,
         Call.LockExit f.m_drawingLock,
         Call.GetCanvasDevice (some g),
         Call.LoadAsync (w.canvasDeviceOf g) uri] ∧
      (CreateSurfaceFromUri P f uri size w).2.surfaceSize s =
        some (match P.LoadAsync uri with
          | Except.ok bitmap => if size.IsEmpty then bitmap.Size else size
          | Except.error _ => if size.IsEmpty then { Width := 0, Height := 0 } else size) := by
  refine ⟨w.nextId, ?_⟩
  have hc := CreateSurface_active f size w g hg
  cases hload : P.LoadAsync uri with
  | error e0 =>
    cases hs : size.IsEmpty <;>
      simp [CreateSurfaceFromUri, CreateSurfaceFromUriAsync, hc,
        DrawSurface_active P f _ uri size _ g hg, hload, hs, issued, World.emit,
        World.surfaceSize, World.canvasDeviceOf]
  | ok bitmap =>
    cases hsession : P.DrawingSessionFault w.nextId with
    | some e0 =>
      cases hs : size.IsEmpty <;>
        simp [CreateSurfaceFromUri, CreateSurfaceFromUriAsync, hc,
          DrawSurface_active P f _ uri size _ g hg, hload,
          DrawBitmap_fault P f w.nextId bitmap _ _ e0 hsession, hs, issued, World.emit,
          World.surfaceSize, World.canvasDeviceOf]
    | none =>
      cases hs : size.IsEmpty <;>
        simp [CreateSurfaceFromUri, CreateSurfaceFromUriAsync, hc,
          DrawSurface_active P f _ uri size _ g hg, hload,
          DrawBitmap_ok P f w.nextId bitmap _ _ hsession, hs, issued, World.emit,
          World.surfaceSize, World.canvasDeviceOf, drawCalls]

/-- Witness for C8: the sample sharing factory, URI 0 (which cannot be fetched):
the surface is allocated and returned, the awaitable fails with the fetch error. -/
theorem C8_sync_returns_surface_async_propagates_witness :
    ∃ s,
      (CreateSurfaceFromUri samplePlatform sampleSharing.1 0 Size.Empty sampleSharing.2).1 =
        Except.ok s ∧
      (CreateSurfaceFromUriAsync samplePlatform sampleSharing.1 0 Size.Empty sampleSharing.2).1 =
        Except.error (Fault.LoadFailed 404) ∧
      (CreateSurfaceFromUri samplePlatform sampleSharing.1 0 Size.Empty
        sampleSharing.2).2.surfaceSize s = some { Width := 0, Height := 0 } :=
  let ⟨s, _, h2, _, _, _, _, h7, _, _, _, _, h12⟩ :=
    C8_sync_returns_surface_async_propagates samplePlatform sampleSharing.1 0 Size.Empty
      sampleSharing.2 9 rfl
  ⟨s, h2, h7 (Fault.LoadFailed 404) rfl, h12⟩

/-- C9: `CreateFromGraphicsDevice(g, l)` yields a device-sharing factory attached
to `g` itself; its only registration is on `g`'s device-replaced event, with the
returned token stored; no canvas device is acquired, bound or disposed. With a
lock supplied the factory's gate is that very lock and no lock is created, so
two factories built with the same lock share one gate; a private lock is
created only when none is supplied. -/
theorem C9_CreateFromGraphicsDevice_shares_device_and_gate (P : Platform) (self self2 : Nat)
    (g g2 : CompositionGraphicsDevice) (lock : Option SharedLock) (l : SharedLock)
    (w w2 : World) :
    (CreateFromGraphicsDevice P self g lock w).1.m_graphicsDevice = some g ∧
    (CreateFromGraphicsDevice P self g lock w).1.m_isDeviceCreator = false ∧
    (CreateFromGraphicsDevice P self g lock w).1.m_canvasDevice = none ∧
    (CreateFromGraphicsDevice P self g lock w).2.binding = w.binding ∧
    (CreateFromGraphicsDevice P self g lock w).2.disposed = w.disposed ∧
    (CreateFromGraphicsDevice P self g lock w).2.subs = w.subs ++
      [{ source := EventSource.RenderingDeviceReplaced g
         token := (CreateFromGraphicsDevice P self g lock w).1.OnRenderingDeviceReplacedHandler
         target := self
         handler := Handler.OnRenderingDeviceReplaced }] ∧
    (CreateFromGraphicsDevice P self g (some l) w).1.m_drawingLock = l ∧
    issued w (CreateFromGraphicsDevice P self g (some l) w).2 =
      [Call.Subscribe (EventSource.RenderingDeviceReplaced g) Handler.OnRenderingDeviceReplaced
        w.nextId] ∧
    (CreateFromGraphicsDevice P self g (some l) w).1.m_drawingLock =
      (CreateFromGraphicsDevice P self2 g2 (some l) w2).1.m_drawingLock ∧
    (CreateFromGraphicsDevice P self g none w).1.m_drawingLock = w.nextId ∧
    issued w (CreateFromGraphicsDevice P self g none w).2 =
      [Call.NewSharedLock w.nextId,
       Call.Subscribe (EventSource.RenderingDeviceReplaced g) Handler.OnRenderingDeviceReplaced
        (w.nextId + 1)] ∧
    CreateFromGraphicsDeviceDefaultLock P self g w = CreateFromGraphicsDevice P self g none w := by
  refine ⟨?_, ?_, ?_, ?_, ?_, ?_, ?_, ?_, ?_, ?_, ?_, rfl⟩
  · rfl
  · rfl
  · rfl
  · cases lock <;> rfl
  · cases lock <;> rfl
  · cases lock <;> rfl
  · rfl
  · simp [issued, CreateFromGraphicsDevice, SurfaceFactory.ofGraphicsDevice, subscribe]
  · rfl
  · rfl
  · simp [issued, CreateFromGraphicsDevice, SurfaceFactory.ofGraphicsDevice, subscribe,
      NewSharedLock]

/-- C10 fails as stated: on the sample device-owning factory, `CreateSurface`
after `Uninitialize` enters the gate and fails with a null-reference fault,
which is not the "disposed" error. -/
theorem C10_counterexample_no_disposed_error :
    (CreateSurface sampleTornDown.1 { Width := 8, Height := 8 } sampleTornDown.2).1 =
      Except.error Fault.NullReference ∧
    (CreateSurface sampleTornDown.1 { Width := 8, Height := 8 } sampleTornDown.2).1 ≠
      Except.error Fault.ObjectDisposed ∧
    issued sampleTornDown.2
        (CreateSurface sampleTornDown.1 { Width := 8, Height := 8 } sampleTornDown.2).2 =
      [Call.LockEnter 1, Call.LockExit 1] := by
  have hg : sampleTornDown.1.m_graphicsDevice = none := by
    unfold sampleTornDown
    rw [Uninitialize_fields]
  have hl : sampleTornDown.1.m_drawingLock = 1 := by
    unfold sampleTornDown
    rw [Uninitialize_fields]
    rfl
  rw [CreateSurface_null _ _ _ hg, hl]
  refine ⟨rfl, ?_, ?_⟩
  · intro h
    cases h
  · simp [issued]

/-- C10 (as amended): no operation checks for teardown. On every factory on
which `Uninitialize` has run, `CreateSurface`, `CreateSurfaceFromUri`,
`CreateSurfaceFromUriAsync` and `CreateSurfaceFromBytes` each submit the
allocation to the gate, where the call through the nulled graphics device
faults with a null-reference error, not a "disposed" one; the gate is entered
and left and nothing else is issued. -/
theorem C10_use_after_teardown_null_reference (P : Platform) (f : SurfaceFactory) (w : World)
    (ops : List Op) (size : Size) (uri : Uri) (bytes : List Nat)
    (widthInPixels heightInPixels : Int) :
    CreateSurface (afterTeardown P f w ops).1 size (afterTeardown P f w ops).2 =
      (Except.error Fault.NullReference,
       { (afterTeardown P f w ops).2 with
         log := (afterTeardown P f w ops).2.log ++
           [Call.LockEnter f.m_drawingLock, Call.LockExit f.m_drawingLock] }) ∧
    CreateSurfaceFromUri P (afterTeardown P f w ops).1 uri size (afterTeardown P f w ops).2 =
      CreateSurface (afterTeardown P f w ops).1 size (afterTeardown P f w ops).2 ∧
    CreateSurfaceFromUriAsync P (afterTeardown P f w ops).1 uri size
        (afterTeardown P f w ops).2 =
      CreateSurface (afterTeardown P f w ops).1 size (afterTeardown P f w ops).2 ∧
    CreateSurfaceFromBytes P (afterTeardown P f w ops).1 bytes widthInPixels heightInPixels size
        (afterTeardown P f w ops).2 =
      CreateSurface (afterTeardown P f w ops).1 size (afterTeardown P f w ops).2 ∧
    Fault.NullReference ≠ Fault.ObjectDisposed := by
  have hg := afterTeardown_graphicsDevice P f w ops
  have hl := afterTeardown_drawingLock P f w ops
  have h := CreateSurface_null (afterTeardown P f w ops).1 size (afterTeardown P f w ops).2 hg
  refine ⟨?_, ?_, ?_, ?_, by decide⟩
  · rw [h, hl]
  · simp only [CreateSurfaceFromUri, h]
  · simp only [CreateSurfaceFromUriAsync, h]
  · simp only [CreateSurfaceFromBytes, h]

end CSF
